import Mathlib

/-!
Shallow embedding of the Sengine repository core: the Swindow windowing
layer (key-code tables, window state, the Win32 message procedure), the
Sengine assertion helper, the Renderer2D begin/draw/end guard, and the
Application lifecycle driver.  Each definition is translated from the
corresponding C++ source file; theorems at the end settle the spec claims.
-/

/-- Model of `std::unordered_map::find` over a literal association list:
returns the value bound to the first matching key, or `none`. -/
def mapFind {α β : Type} [DecidableEq α] : List (α × β) → α → Option β
  | [], _ => none
  | (k, v) :: rest, key => if key = k then some v else mapFind rest key

namespace Swindow

/-- `enum class KeyCode : uint8_t` from Swindow.h. -/
inductive KeyCode where
  | Unknown
  | A | B | C | D | E | F | G | H | I | J | K | L | M
  | N | O | P | Q | R | S | T | U | V | W | X | Y | Z
  | Num0 | Num1 | Num2 | Num3 | Num4 | Num5 | Num6 | Num7 | Num8 | Num9
  | Escape | Enter | Space | Backspace | Tab | Shift | Ctrl | Alt
  | Left | Right | Up | Down
  | F1 | F2 | F3 | F4 | F5 | F6 | F7 | F8 | F9 | F10 | F11 | F12
  | Count
deriving DecidableEq, Repr

/-- `enum class MouseButton` from Swindow.h (`Unknown = 0`, then left, right). -/
inductive MouseButton where
  | Unknown
  | LeftMouseButton
  | RightMouseButton
deriving DecidableEq, Repr

/-! Win32 virtual-key constants used by the key maps (values from Windows.h). -/

def VK_LBUTTON : Nat := 0x01
def VK_RBUTTON : Nat := 0x02
def VK_BACK : Int := 0x08
def VK_TAB : Int := 0x09
def VK_RETURN : Int := 0x0D
def VK_SHIFT : Int := 0x10
def VK_CONTROL : Int := 0x11
def VK_MENU : Int := 0x12
def VK_ESCAPE : Int := 0x1B
def VK_SPACE : Int := 0x20
def VK_LEFT : Int := 0x25
def VK_UP : Int := 0x26
def VK_RIGHT : Int := 0x27
def VK_DOWN : Int := 0x28
def VK_F1 : Int := 0x70
def VK_F2 : Int := 0x71
def VK_F3 : Int := 0x72
def VK_F4 : Int := 0x73
def VK_F5 : Int := 0x74
def VK_F6 : Int := 0x75
def VK_F7 : Int := 0x76
def VK_F8 : Int := 0x77
def VK_F9 : Int := 0x78
def VK_F10 : Int := 0x79
def VK_F11 : Int := 0x7A
def VK_F12 : Int := 0x7B

/-- The literal `keyMap` of `Win32NativeWindow::ConvertNativeKeyCodes`
(native virtual-key code to engine `KeyCode`); character keys are their
ASCII codes (`'A'` = 65, ..., `'Z'` = 90). -/
def convertKeyMap : List (Int × KeyCode) :=
  [ (65, .A), (66, .B), (67, .C), (68, .D),
    (69, .E), (70, .F), (71, .G), (72, .H),
    (73, .I), (74, .J), (75, .K), (76, .L),
    (77, .M), (78, .N), (79, .O), (80, .P),
    (81, .Q), (82, .R), (83, .S), (84, .T),
    (85, .U), (86, .V), (87, .W), (88, .X),
    (89, .Y), (90, .Z),
    (VK_ESCAPE, .Escape), (VK_RETURN, .Enter),
    (VK_SPACE, .Space), (VK_BACK, .Backspace),
    (VK_TAB, .Tab), (VK_SHIFT, .Shift),
    (VK_CONTROL, .Ctrl), (VK_MENU, .Alt),
    (VK_LEFT, .Left), (VK_RIGHT, .Right),
    (VK_UP, .Up), (VK_DOWN, .Down),
    (VK_F1, .F1), (VK_F2, .F2), (VK_F3, .F3),
    (VK_F4, .F4), (VK_F5, .F5), (VK_F6, .F6),
    (VK_F7, .F7), (VK_F8, .F8), (VK_F9, .F9),
    (VK_F10, .F10), (VK_F11, .F11), (VK_F12, .F12) ]

/-- The literal `keyMap` of `Win32NativeWindow::GetNativeKeyCodes`
(engine `KeyCode` back to native virtual-key code). -/
def nativeKeyMap : List (KeyCode × Int) :=
  [ (.A, 65), (.B, 66), (.C, 67), (.D, 68),
    (.E, 69), (.F, 70), (.G, 71), (.H, 72),
    (.I, 73), (.J, 74), (.K, 75), (.L, 76),
    (.M, 77), (.N, 78), (.O, 79), (.P, 80),
    (.Q, 81), (.R, 82), (.S, 83), (.T, 84),
    (.U, 85), (.V, 86), (.W, 87), (.X, 88),
    (.Y, 89), (.Z, 90),
    (.Escape, VK_ESCAPE), (.Enter, VK_RETURN),
    (.Space, VK_SPACE), (.Backspace, VK_BACK),
    (.Tab, VK_TAB), (.Shift, VK_SHIFT),
    (.Ctrl, VK_CONTROL), (.Alt, VK_MENU),
    (.Left, VK_LEFT), (.Right, VK_RIGHT),
    (.Up, VK_UP), (.Down, VK_DOWN),
    (.F1, VK_F1), (.F2, VK_F2), (.F3, VK_F3),
    (.F4, VK_F4), (.F5, VK_F5), (.F6, VK_F6),
    (.F7, VK_F7), (.F8, VK_F8), (.F9, VK_F9),
    (.F10, VK_F10), (.F11, VK_F11), (.F12, VK_F12) ]

/-- `Win32NativeWindow::ConvertNativeKeyCodes`: look the native code up in
the table; a miss yields `KeyCode::Unknown`. -/
def ConvertNativeKeyCodes (key : Int) : KeyCode :=
  (mapFind convertKeyMap key).getD KeyCode.Unknown

/-- `Win32NativeWindow::GetNativeKeyCodes`: look the engine code up in the
reverse table; a miss yields `-1`. -/
def GetNativeKeyCodes (code : KeyCode) : Int :=
  (mapFind nativeKeyMap code).getD (-1)

/-- `struct WindowDescription` from Swindow.h. -/
structure WindowDescription where
  Title : String
  Width : Int
  Height : Int
deriving DecidableEq, Repr

/-- `struct WindowCallbacks`: one optional callback per event kind.  The
callback bodies are external client code, so each slot is modelled by what
the message procedure observes of it: whether it is registered, and — for
the close callback, whose boolean result steers the window — the value it
returns when invoked during the event being analysed. -/
structure WindowCallbacks where
  resizeRegistered : Bool
  closeResult : Option Bool
  keyRegistered : Bool
  mouseRegistered : Bool
  mouseMoveRegistered : Bool
  characterRegistered : Bool
deriving DecidableEq, Repr

/-- `Win32NativeWindow` resource fields: `m_WindowHandle` (HWND, `none`
models a null handle after a failed `CreateWindowEx`) and `m_OpenGLContext`
(HGLRC, `none` models absence of a bound context). -/
structure Win32NativeWindow where
  m_WindowHandle : Option Unit
  m_OpenGLContext : Option Unit
deriving DecidableEq, Repr

/-- `Win32NativeWindow` constructor: `CreateWindowEx` either yields a
handle or fails with an error dialog and an early return that leaves the
handle null; the platform outcome is the `platformOk` parameter.  No
rendering context exists yet. -/
def Win32NativeWindow.create (platformOk : Bool) : Win32NativeWindow :=
  { m_WindowHandle := if platformOk then some () else none
    m_OpenGLContext := none }

/-- `Win32NativeWindow::CreateContext`: on success binds the new OpenGL
context to `m_OpenGLContext`; every failure path shows a dialog and
returns without touching `m_OpenGLContext`.  The platform outcome is the
`contextOk` parameter. -/
def Win32NativeWindow.CreateContext (nw : Win32NativeWindow) (contextOk : Bool) :
    Win32NativeWindow :=
  if contextOk then { nw with m_OpenGLContext := some () } else nw

/-- `Win32NativeWindow::Destroy`: deletes the rendering context, releases
the device context and destroys the window, leaving both resources gone. -/
def Win32NativeWindow.destroyNative (nw : Win32NativeWindow) : Win32NativeWindow :=
  { nw with m_WindowHandle := none, m_OpenGLContext := none }

/-- `Swindow::Window` state: description, callbacks, the owned native
window, and the running flag `m_IsRunning`. -/
structure Window where
  m_WindowDescription : WindowDescription
  m_WindowCallbacks : WindowCallbacks
  m_NativeWindow : Win32NativeWindow
  m_IsRunning : Bool
deriving DecidableEq, Repr

/-- Callback table with nothing registered (default-constructed
`std::function` slots are empty). -/
def emptyCallbacks : WindowCallbacks :=
  { resizeRegistered := false
    closeResult := none
    keyRegistered := false
    mouseRegistered := false
    mouseMoveRegistered := false
    characterRegistered := false }

/-- `Swindow::Window::Create`: make a window, store the description,
create the native window (whose internal platform outcome is
`platformOk`), set `m_IsRunning` to true, and return it — unconditionally
a non-null shared pointer (`std::make_shared`). -/
def Window.Create (description : WindowDescription) (platformOk : Bool) :
    Option Window :=
  some
    { m_WindowDescription := description
      m_WindowCallbacks := emptyCallbacks
      m_NativeWindow := Win32NativeWindow.create platformOk
      m_IsRunning := true }

/-- `Swindow::Window::Destroy`: delegates to the native window destroy and
logs; nothing else in the window state is touched. -/
def Window.Destroy (w : Window) : Window :=
  { w with m_NativeWindow := w.m_NativeWindow.destroyNative }

/-- `Swindow::Window::GetIsRunning`. -/
def Window.GetIsRunning (w : Window) : Bool :=
  w.m_IsRunning

/-- `Swindow::Window::SetIsRunning`. -/
def Window.SetIsRunning (w : Window) (value : Bool) : Window :=
  { w with m_IsRunning := value }

/-- `Swindow::Window::SetWindowSize`: overwrite the description's width
and height. -/
def Window.SetWindowSize (w : Window) (width height : Int) : Window :=
  { w with m_WindowDescription :=
      { w.m_WindowDescription with Width := width, Height := height } }

/-- `Swindow::Window::CreateContext`: pass-through to the native window. -/
def Window.CreateContext (w : Window) (contextOk : Bool) : Window :=
  { w with m_NativeWindow := w.m_NativeWindow.CreateContext contextOk }

/-! Win32 window-message constants (values from Windows.h). -/

def WM_DESTROY : Nat := 0x0002
def WM_SIZE : Nat := 0x0005
def WM_CLOSE : Nat := 0x0010
def WM_KEYDOWN : Nat := 0x0100
def WM_KEYUP : Nat := 0x0101
def WM_CHAR : Nat := 0x0102
def WM_MOUSEMOVE : Nat := 0x0200
def WM_LBUTTONDOWN : Nat := 0x0201
def WM_LBUTTONUP : Nat := 0x0202
def WM_RBUTTONDOWN : Nat := 0x0204
def WM_RBUTTONUP : Nat := 0x0205

/-- Win32 `LOWORD`: low 16 bits. -/
def LOWORD (x : Nat) : Nat := x % 65536

/-- Win32 `HIWORD`: next 16 bits. -/
def HIWORD (x : Nat) : Nat := x / 65536 % 65536

/-- `static_cast<MouseButton>` on the underlying values `Unknown = 0`,
`LeftMouseButton = 1`, `RightMouseButton = 2` (as used with `VK_LBUTTON`
and `VK_RBUTTON`). -/
def mouseButtonOfCode (code : Nat) : MouseButton :=
  if code = 1 then MouseButton.LeftMouseButton
  else if code = 2 then MouseButton.RightMouseButton
  else MouseButton.Unknown

/-- One observable callback invocation performed by `WindowProc`. -/
inductive CallbackInvocation where
  | resize (width height : Int)
  | close
  | key (code : KeyCode) (action : Bool)
  | mouse (button : MouseButton) (action : Bool)
  | mouseMove (x y : Int)
  | character (c : Nat)
  | postQuit
deriving DecidableEq, Repr

/-- The `WindowProc` message switch (non-null `windowPtr` case).  Returns
the updated window state and the list of callback invocations it performs,
with their argument values; unhandled messages fall through to
`DefWindowProc` with no effect on the window.  The message cases follow
Swindow.h: note that in the `WM_SIZE` case the description update by
`SetWindowSize` happens inside the branch that requires a resize callback
to be registered, and that the `WM_RBUTTONDOWN`/`WM_RBUTTONUP` case
computes its `isPressed` flag by comparing `uMsg` against
`WM_LBUTTONDOWN`. -/
def WindowProc (win : Window) (uMsg wParam lParam : Nat) :
    Window × List CallbackInvocation :=
  if uMsg = WM_CHAR then
    if win.m_WindowCallbacks.characterRegistered then
      (win, [CallbackInvocation.character (wParam % 256)])
    else (win, [])
  else if uMsg = WM_SIZE then
    if win.m_WindowCallbacks.resizeRegistered then
      let width : Int := LOWORD lParam
      let height : Int := HIWORD lParam
      (win.SetWindowSize width height, [CallbackInvocation.resize width height])
    else (win, [])
  else if uMsg = WM_KEYDOWN ∨ uMsg = WM_KEYUP then
    if win.m_WindowCallbacks.keyRegistered then
      (win, [CallbackInvocation.key (ConvertNativeKeyCodes wParam)
               (decide (uMsg = WM_KEYDOWN))])
    else (win, [])
  else if uMsg = WM_LBUTTONDOWN ∨ uMsg = WM_LBUTTONUP then
    if win.m_WindowCallbacks.mouseRegistered then
      (win, [CallbackInvocation.mouse (mouseButtonOfCode VK_LBUTTON)
               (decide (uMsg = WM_LBUTTONDOWN))])
    else (win, [])
  else if uMsg = WM_RBUTTONDOWN ∨ uMsg = WM_RBUTTONUP then
    if win.m_WindowCallbacks.mouseRegistered then
      (win, [CallbackInvocation.mouse (mouseButtonOfCode VK_RBUTTON)
               (decide (uMsg = WM_LBUTTONDOWN))])
    else (win, [])
  else if uMsg = WM_MOUSEMOVE then
    if win.m_WindowCallbacks.mouseMoveRegistered then
      (win, [CallbackInvocation.mouseMove (LOWORD lParam) (HIWORD lParam)])
    else (win, [])
  else if uMsg = WM_CLOSE then
    match win.m_WindowCallbacks.closeResult with
    | some b =>
      if b then (win.SetIsRunning false, [CallbackInvocation.close])
      else (win, [CallbackInvocation.close])
    | none => (win.SetIsRunning false, [])
  else if uMsg = WM_DESTROY then
    (win, [CallbackInvocation.postQuit])
  else (win, [])

end Swindow

namespace Sengine

/-- One line block appended to AssertLog.txt by `Assertion::Assert`:
file, line, condition text and message. -/
structure AssertLogEntry where
  file : String
  line : Nat
  condition : String
  message : String
deriving DecidableEq, Repr

/-- Outcome of a call to `Assertion::Assert`: either the process aborts
(`std::abort`) or the call returns normally; both carry the final state of
the AssertLog.txt log, modelled as the list of appended entries. -/
inductive AssertOutcome where
  | aborted (log : List AssertLogEntry)
  | returned (log : List AssertLogEntry)
deriving DecidableEq, Repr

/-- `Assertion::Assert` from Assert.h: when `condition` is TRUE it appends
the diagnostic entry to AssertLog.txt (happy path: the file opens) and
calls `std::abort`; when `condition` is false it does nothing and returns. -/
def Assertion.Assert (condition : Bool) (conditionStr file : String) (line : Nat)
    (message : String) (log : List AssertLogEntry) : AssertOutcome :=
  if condition then
    AssertOutcome.aborted (log ++ [⟨file, line, conditionStr, message⟩])
  else
    AssertOutcome.returned log

/-- The `SE_Assert(cond, msg)` macro: expands to `Assertion::Assert` with
the stringised condition, `__FILE__` and `__LINE__`. -/
def SE_Assert (cond : Bool) (condStr file : String) (line : Nat) (msg : String)
    (log : List AssertLogEntry) : AssertOutcome :=
  Assertion.Assert cond condStr file line msg log

namespace Renderer2D

/-- Stringised condition of the `SE_Assert` in `Renderer2D::BeginRender`. -/
def beginCondStr : String := "m_CurrentRenderIndex == 1"

/-- Stringised condition of the `SE_Assert` in `Renderer2D::DrawQuad`. -/
def drawCondStr : String := "m_CurrentRenderIndex == 0"

/-- Source file name the renderer asserts report. -/
def rendererFile : String := "Renderer2D.cpp"

/-- Message of the `SE_Assert` in `Renderer2D::BeginRender`. -/
def beginMsg : String :=
  "[Render 2D] Error: Has not called End Render function after the draw function"

/-- Message of the `SE_Assert` in `Renderer2D::DrawQuad`. -/
def drawMsg : String :=
  "[Render 2D] Error: Has not called either Begin Render function before draw function"

/-- `Renderer2D::BeginRender` acting on `m_CurrentRenderIndex` (a C++
`int`, modelled as `Int`): `SE_Assert(m_CurrentRenderIndex == 1, ...)` —
which aborts exactly when the counter IS 1 — then `m_CurrentRenderIndex++`.
`none` models process abort. -/
def BeginRender (c : Int) : Option Int :=
  match SE_Assert (c == 1) beginCondStr rendererFile 10 beginMsg [] with
  | AssertOutcome.aborted _ => none
  | AssertOutcome.returned _ => some (c + 1)

/-- `Renderer2D::EndRender`: `m_CurrentRenderIndex = 0`, unconditionally. -/
def EndRender (_c : Int) : Option Int :=
  some 0

/-- `Renderer2D::DrawQuad`: `SE_Assert(m_CurrentRenderIndex == 0, ...)` —
which aborts exactly when the counter IS 0 — and no state change. -/
def DrawQuad (c : Int) : Option Int :=
  match SE_Assert (c == 0) drawCondStr rendererFile 20 drawMsg [] with
  | AssertOutcome.aborted _ => none
  | AssertOutcome.returned _ => some c

/-- The three operations of the render-pass guard. -/
inductive RenderOp where
  | beginRender
  | drawQuad
  | endRender
deriving DecidableEq, Repr

/-- Dispatch one guard operation on the current counter value. -/
def applyOp (c : Int) : RenderOp → Option Int
  | RenderOp.beginRender => BeginRender c
  | RenderOp.drawQuad => DrawQuad c
  | RenderOp.endRender => EndRender c

/-- Run a sequence of guard operations from counter value `c`; `none`
models a process abort at the first failing assertion. -/
def runFrom (c : Int) : List RenderOp → Option Int
  | [] => some c
  | op :: rest =>
    match applyOp c op with
    | none => none
    | some c2 => runFrom c2 rest

/-- Run a sequence of guard operations from the initial state
(`inline static int m_CurrentRenderIndex = 0`). -/
def runRenderOps (ops : List RenderOp) : Option Int :=
  runFrom 0 ops

/-- One complete Begin→Draw→End bracket. -/
def bracket : List RenderOp :=
  [RenderOp.beginRender, RenderOp.drawQuad, RenderOp.endRender]

/-- `n` Begin→Draw→End brackets in that exact order. -/
def bracketSeq (n : Nat) : List RenderOp :=
  (List.replicate n bracket).flatten

/-- Whether a `BeginRender` has occurred since the last `EndRender` (or
since the start), scanning left to right. -/
def updFlag (b : Bool) : RenderOp → Bool
  | RenderOp.beginRender => true
  | RenderOp.endRender => false
  | RenderOp.drawQuad => b

/-- True when the operation sequence contains a `BeginRender` after its
last `EndRender` (or anywhere, when it contains no `EndRender`). -/
def hasOpenBegin (ops : List RenderOp) : Bool :=
  ops.foldl updFlag false

end Renderer2D

/-- `Sengine::Window`: facade exclusively owning one `Swindow::Window`
(a `shared_ptr`; `none` models the null pointer of a default-constructed
facade on which `Create` was never called). -/
structure Window where
  m_NativeWindow : Option Swindow.Window
deriving DecidableEq, Repr

/-- `Sengine::WindowDescription` is a `Swindow::WindowDescription`. -/
abbrev WindowDescription := Swindow.WindowDescription

/-- `Sengine::Window::Create`: sets `m_NativeWindow` from
`Swindow::Window::Create`, calls `CreateContext` on it, and returns
`std::make_shared<Window>()` — a non-null pointer to a fresh
default-constructed facade, regardless of the platform outcomes
`platformOk` and `contextOk`.  The result pairs the mutated receiver with
the returned pointer (`Option` models pointer nullness). -/
def Window.Create (_self : Window) (description : WindowDescription)
    (platformOk contextOk : Bool) : Window × Option Window :=
  let native := Swindow.Window.Create description platformOk
  let native := native.map (fun w => w.CreateContext contextOk)
  ({ m_NativeWindow := native }, some { m_NativeWindow := none })

/-- `Sengine::Window::Destroy`: delegates to the native window destroy. -/
def Window.Destroy (w : Window) : Window :=
  { w with m_NativeWindow := w.m_NativeWindow.map Swindow.Window.Destroy }

/-- `Sengine::Window::GetIsRunning`: delegates to the native window
(`none` models the null-dereference on a facade without a native window). -/
def Window.GetIsRunning (w : Window) : Option Bool :=
  w.m_NativeWindow.map Swindow.Window.GetIsRunning

/-- The `ISengineApp` client contract as the Application driver observes
it during startup: the window description it supplies and the boolean
results of its two fallible lifecycle hooks. -/
structure ClientApp where
  windowDescription : WindowDescription
  onEarlyInitResult : Bool
  onInitResult : Bool
deriving DecidableEq, Repr

/-- Calls the Application driver makes, in order: client lifecycle hooks
plus the window create/destroy calls interleaved with them. -/
inductive HookCall where
  | onEarlyInit
  | windowCreate
  | onInit
  | onTick
  | onDestroy
  | windowDestroy
  | onLateDestroy
deriving DecidableEq, Repr

/-- `Application::Init`: `OnEarlyInit`, then construct the facade and call
`m_Window->Create(...)` testing the returned pointer for null, then
`OnInit`; any failure short-circuits.  Returns whether Init succeeded and
the ordered calls it made. -/
def Application.initTrace (app : ClientApp) (platformOk contextOk : Bool) :
    Bool × List HookCall :=
  if app.onEarlyInitResult = false then (false, [HookCall.onEarlyInit])
  else
    let facade : Window := { m_NativeWindow := none }
    let created := (facade.Create app.windowDescription platformOk contextOk).2
    match created with
    | none => (false, [HookCall.onEarlyInit, HookCall.windowCreate])
    | some _ =>
      if app.onInitResult = false then
        (false, [HookCall.onEarlyInit, HookCall.windowCreate, HookCall.onInit])
      else
        (true, [HookCall.onEarlyInit, HookCall.windowCreate, HookCall.onInit])

/-- `Application::Init`'s boolean result alone. -/
def Application.Init (app : ClientApp) (platformOk contextOk : Bool) : Bool :=
  (Application.initTrace app platformOk contextOk).1

/-- `Application::Destroy`: client `OnDestroy`, then `Window::Destroy`,
then client `OnLateDestroy`, in that fixed order. -/
def Application.destroyTrace : List HookCall :=
  [HookCall.onDestroy, HookCall.windowDestroy, HookCall.onLateDestroy]

/-- `Application::CreateApplication`: store the client app, run `Init`;
on failure return at once, otherwise run the tick loop (here exiting after
`ticks` iterations, each invoking client `OnTick`) and then `Destroy`. -/
def Application.createApplicationTrace (app : ClientApp)
    (platformOk contextOk : Bool) (ticks : Nat) : List HookCall :=
  let r := Application.initTrace app platformOk contextOk
  if r.1 then
    r.2 ++ List.replicate ticks HookCall.onTick ++ Application.destroyTrace
  else
    r.2

end Sengine

/-! Helper lemmas about the render-pass guard. -/

/-- `BeginRender` computed: aborts exactly at counter value 1, else
increments. -/
theorem Sengine.Renderer2D.beginRender_eq (c : Int) :
    BeginRender c = if c = 1 then none else some (c + 1) := by
  by_cases h : c = 1 <;>
    simp [BeginRender, SE_Assert, Assertion.Assert, h]

/-- `DrawQuad` computed: aborts exactly at counter value 0, else leaves the
counter unchanged. -/
theorem Sengine.Renderer2D.drawQuad_eq (c : Int) :
    DrawQuad c = if c = 0 then none else some c := by
  by_cases h : c = 0 <;>
    simp [DrawQuad, SE_Assert, Assertion.Assert, h]

/-- Counter values that survive a run started at a 0/1 counter stay in
lock-step with the open-begin flag. -/
theorem Sengine.Renderer2D.runFrom_flag :
    ∀ (ops : List RenderOp) (b : Bool) (c2 : Int),
      runFrom (if b then 1 else 0) ops = some c2 →
      c2 = if ops.foldl updFlag b then 1 else 0 := by
  intro ops
  induction ops with
  | nil =>
    intro b c2 h
    cases b <;> simp_all [runFrom]
  | cons op rest ih =>
    intro b c2 h
    cases op with
    | beginRender =>
      cases b with
      | true =>
        simp [runFrom, applyOp, beginRender_eq] at h
      | false =>
        simp only [runFrom, applyOp, beginRender_eq] at h
        norm_num at h
        have := ih true c2 (by simpa using h)
        simpa [updFlag] using this
    | drawQuad =>
      cases b with
      | true =>
        simp only [runFrom, applyOp, drawQuad_eq] at h
        norm_num at h
        have := ih true c2 (by simpa using h)
        simpa [updFlag] using this
      | false =>
        simp [runFrom, applyOp, drawQuad_eq] at h
    | endRender =>
      simp only [runFrom, applyOp, EndRender] at h
      have := ih false c2 (by simpa using h)
      simpa [updFlag] using this

/-- Splitting a run across a concatenation. -/
theorem Sengine.Renderer2D.runFrom_append (l1 l2 : List RenderOp) :
    ∀ c : Int, runFrom c (l1 ++ l2) =
      match runFrom c l1 with
      | none => none
      | some c2 => runFrom c2 l2 := by
  induction l1 with
  | nil => intro c; simp [runFrom]
  | cons op rest ih =>
    intro c
    cases hop : applyOp c op with
    | none => simp [runFrom, hop]
    | some c2 => simp [runFrom, hop, ih c2]

/-- A run of `n` Begin→Draw→End brackets ends at counter 0 without
aborting. -/
theorem Sengine.Renderer2D.bracketSeq_runs (n : Nat) :
    runRenderOps (bracketSeq n) = some 0 := by
  induction n with
  | zero => simp [runRenderOps, bracketSeq, runFrom]
  | succ k ih =>
    have hrep : bracketSeq (k + 1) = bracket ++ bracketSeq k := by
      simp [bracketSeq, List.replicate]
    rw [runRenderOps, hrep]
    simp only [bracket, runFrom, applyOp, beginRender_eq, drawQuad_eq, EndRender]
    norm_num
    exact ih

/-- C1: starting from the initial guard state, every sequence of
Begin→Draw→End brackets in that exact order runs without aborting, and any
DrawQuad call with no BeginRender since the last EndRender (or since the
start) aborts the process. -/
theorem renderer2D_begin_draw_end_discipline :
    (∀ n : Nat,
      Sengine.Renderer2D.runRenderOps (Sengine.Renderer2D.bracketSeq n) ≠ none) ∧
    (∀ pre post : List Sengine.Renderer2D.RenderOp,
      Sengine.Renderer2D.hasOpenBegin pre = false →
      Sengine.Renderer2D.runRenderOps
        (pre ++ Sengine.Renderer2D.RenderOp.drawQuad :: post) = none) := by
  constructor
  · intro n
    simp [Sengine.Renderer2D.bracketSeq_runs n]
  · intro pre post hflag
    rw [Sengine.Renderer2D.runRenderOps,
      Sengine.Renderer2D.runFrom_append pre
        (Sengine.Renderer2D.RenderOp.drawQuad :: post) 0]
    cases hpre : Sengine.Renderer2D.runFrom 0 pre with
    | none => rfl
    | some c2 =>
      have hc : c2 = 0 := by
        have h2 := Sengine.Renderer2D.runFrom_flag pre false c2 (by simpa using hpre)
        have hf : List.foldl Sengine.Renderer2D.updFlag false pre = false := hflag
        simpa [hf] using h2
      subst hc
      simp [Sengine.Renderer2D.runFrom, Sengine.Renderer2D.applyOp,
        Sengine.Renderer2D.drawQuad_eq]

/-- C1 witness: two full brackets run without aborting, and a DrawQuad
right after an EndRender (no BeginRender since) aborts. -/
theorem renderer2D_begin_draw_end_discipline_witness :
    Sengine.Renderer2D.runRenderOps (Sengine.Renderer2D.bracketSeq 2) ≠ none ∧
    Sengine.Renderer2D.runRenderOps
      ([Sengine.Renderer2D.RenderOp.beginRender,
        Sengine.Renderer2D.RenderOp.endRender] ++
        Sengine.Renderer2D.RenderOp.drawQuad :: []) = none :=
  ⟨renderer2D_begin_draw_end_discipline.1 2,
    renderer2D_begin_draw_end_discipline.2
      [Sengine.Renderer2D.RenderOp.beginRender,
        Sengine.Renderer2D.RenderOp.endRender] [] (by decide)⟩

/-- C6: in every state reachable without aborting, the render-pass counter
is 0 or 1; BeginRender aborts at counter 1 and otherwise is the only
operation that increments; EndRender resets to 0 from any counter without
aborting; DrawQuad never changes the counter. -/
theorem renderer2D_counter_invariant :
    (∀ (ops : List Sengine.Renderer2D.RenderOp) (c : Int),
      Sengine.Renderer2D.runRenderOps ops = some c → c = 0 ∨ c = 1) ∧
    (∀ c : Int,
      Sengine.Renderer2D.BeginRender c = if c = 1 then none else some (c + 1)) ∧
    (∀ c : Int, Sengine.Renderer2D.EndRender c = some 0) ∧
    (∀ c c2 : Int, Sengine.Renderer2D.DrawQuad c = some c2 → c2 = c) := by
  refine ⟨?_, Sengine.Renderer2D.beginRender_eq, fun _ => rfl, ?_⟩
  · intro ops c h
    have := Sengine.Renderer2D.runFrom_flag ops false c (by simpa using h)
    by_cases hb : ops.foldl Sengine.Renderer2D.updFlag false = true
    · right; simpa [hb] using this
    · left; simpa [hb] using this
  · intro c c2 h
    rw [Sengine.Renderer2D.drawQuad_eq] at h
    by_cases hc : c = 0
    · simp [hc] at h
    · simp [hc] at h
      exact h.symm

/-- C6 witness: the counter after one BeginRender is within the invariant
set, BeginRender increments at 0, EndRender resets at 1, and DrawQuad at 1
leaves 1 unchanged. -/
theorem renderer2D_counter_invariant_witness :
    ((1 : Int) = 0 ∨ (1 : Int) = 1) ∧
    Sengine.Renderer2D.BeginRender 0 = (if (0 : Int) = 1 then none else some 1) ∧
    Sengine.Renderer2D.EndRender 1 = some 0 ∧
    (1 : Int) = 1 :=
  ⟨renderer2D_counter_invariant.1 [Sengine.Renderer2D.RenderOp.beginRender] 1
      (by decide),
    renderer2D_counter_invariant.2.1 0,
    renderer2D_counter_invariant.2.2.1 1,
    renderer2D_counter_invariant.2.2.2 1 1 (by decide)⟩

/-- C9: `Assertion::Assert` aborts — after appending file, line, condition
text and message to the log — exactly when its condition argument is true,
and returns normally with the log untouched when it is false; hence
`SE_Assert(cond, msg)` aborts if and only if `cond` holds. -/
theorem assertion_abort_polarity :
    ∀ (cond : Bool) (cs f : String) (l : Nat) (m : String)
      (log : List Sengine.AssertLogEntry),
      (Sengine.Assertion.Assert cond cs f l m log =
          Sengine.AssertOutcome.aborted (log ++ [⟨f, l, cs, m⟩]) ↔ cond = true) ∧
      (cond = false →
        Sengine.Assertion.Assert cond cs f l m log =
          Sengine.AssertOutcome.returned log) ∧
      (Sengine.SE_Assert cond cs f l m log =
          Sengine.AssertOutcome.aborted (log ++ [⟨f, l, cs, m⟩]) ↔ cond = true) := by
  intro cond cs f l m log
  cases cond <;>
    simp [Sengine.Assertion.Assert, Sengine.SE_Assert]

/-- C9 witness: with a false condition the assert returns normally without
logging, and with a true condition it aborts after logging. -/
theorem assertion_abort_polarity_witness :
    Sengine.Assertion.Assert false Sengine.Renderer2D.beginCondStr
        Sengine.Renderer2D.rendererFile 10 Sengine.Renderer2D.beginMsg [] =
      Sengine.AssertOutcome.returned [] ∧
    Sengine.SE_Assert true Sengine.Renderer2D.drawCondStr
        Sengine.Renderer2D.rendererFile 20 Sengine.Renderer2D.drawMsg [] =
      Sengine.AssertOutcome.aborted
        [⟨Sengine.Renderer2D.rendererFile, 20, Sengine.Renderer2D.drawCondStr,
          Sengine.Renderer2D.drawMsg⟩] :=
  ⟨(assertion_abort_polarity false Sengine.Renderer2D.beginCondStr
        Sengine.Renderer2D.rendererFile 10 Sengine.Renderer2D.beginMsg []).2.1 rfl,
    (assertion_abort_polarity true Sengine.Renderer2D.drawCondStr
        Sengine.Renderer2D.rendererFile 20 Sengine.Renderer2D.drawMsg []).2.2.mpr rfl⟩

/-- C2: `Sengine::Window::Create` always returns a non-null shared pointer
whatever the platform outcomes, so the `!m_Window->Create(...)` failure
branch in `Application::Init` is unreachable and Init's result is exactly
`OnEarlyInit && OnInit`, independent of native window or context creation
success. -/
theorem window_create_always_nonnull :
    (∀ (self : Sengine.Window) (d : Sengine.WindowDescription) (p c : Bool),
      (Sengine.Window.Create self d p c).2.isSome = true) ∧
    (∀ (app : Sengine.ClientApp) (p c : Bool),
      Sengine.Application.Init app p c =
        (app.onEarlyInitResult && app.onInitResult)) := by
  constructor
  · intro self d p c
    simp [Sengine.Window.Create]
  · intro app p c
    cases he : app.onEarlyInitResult <;> cases hi : app.onInitResult <;>
      simp [Sengine.Application.Init, Sengine.Application.initTrace,
        Sengine.Window.Create, he, hi]

/-- C5: a false `OnEarlyInit` or `OnInit` makes `CreateApplication` return
before any `OnTick`, `OnDestroy` or `OnLateDestroy`; when Init succeeds the
trace is the init calls, the ticks, then the fixed teardown order
`OnDestroy`, `Window::Destroy`, `OnLateDestroy`. -/
theorem application_lifecycle_order :
    (∀ (app : Sengine.ClientApp) (p c : Bool) (ticks : Nat),
      (app.onEarlyInitResult = false ∨ app.onInitResult = false) →
      Sengine.HookCall.onTick ∉
          Sengine.Application.createApplicationTrace app p c ticks ∧
      Sengine.HookCall.onDestroy ∉
          Sengine.Application.createApplicationTrace app p c ticks ∧
      Sengine.HookCall.onLateDestroy ∉
          Sengine.Application.createApplicationTrace app p c ticks) ∧
    (∀ (app : Sengine.ClientApp) (p c : Bool) (ticks : Nat),
      app.onEarlyInitResult = true → app.onInitResult = true →
      Sengine.Application.createApplicationTrace app p c ticks =
        [Sengine.HookCall.onEarlyInit, Sengine.HookCall.windowCreate,
          Sengine.HookCall.onInit] ++
          List.replicate ticks Sengine.HookCall.onTick ++
          [Sengine.HookCall.onDestroy, Sengine.HookCall.windowDestroy,
            Sengine.HookCall.onLateDestroy]) := by
  constructor
  · intro app p c ticks hfail
    rcases hfail with he | hi
    · simp [Sengine.Application.createApplicationTrace,
        Sengine.Application.initTrace, he]
    · cases he : app.onEarlyInitResult <;>
        simp [Sengine.Application.createApplicationTrace,
          Sengine.Application.initTrace, Sengine.Window.Create, he, hi]
  · intro app p c ticks he hi
    simp [Sengine.Application.createApplicationTrace,
      Sengine.Application.initTrace, Sengine.Window.Create, he, hi,
      Sengine.Application.destroyTrace]

/-- C5 witness: with both hooks succeeding the full trace appears in
order; the `OnInit`-fails case is covered by part one at a concrete app. -/
theorem application_lifecycle_order_witness :
    Sengine.Application.createApplicationTrace
        ⟨⟨"Editor", 1270, 720⟩, true, true⟩ true true 2 =
      [Sengine.HookCall.onEarlyInit, Sengine.HookCall.windowCreate,
        Sengine.HookCall.onInit] ++
        List.replicate 2 Sengine.HookCall.onTick ++
        [Sengine.HookCall.onDestroy, Sengine.HookCall.windowDestroy,
          Sengine.HookCall.onLateDestroy] ∧
    Sengine.HookCall.onDestroy ∉
      Sengine.Application.createApplicationTrace
        ⟨⟨"Editor", 1270, 720⟩, true, false⟩ true true 2 :=
  ⟨application_lifecycle_order.2 ⟨⟨"Editor", 1270, 720⟩, true, true⟩ true true 2
      rfl rfl,
    (application_lifecycle_order.1 ⟨⟨"Editor", 1270, 720⟩, true, false⟩ true true 2
      (Or.inr rfl)).2.1⟩

/-- C8: destroying a window leaves the running flag unchanged, both at the
Sengine facade and at the Swindow layer. -/
theorem window_destroy_preserves_running :
    (∀ w : Sengine.Window,
      (Sengine.Window.Destroy w).GetIsRunning = w.GetIsRunning) ∧
    (∀ sw : Swindow.Window,
      (Swindow.Window.Destroy sw).GetIsRunning = sw.GetIsRunning) := by
  constructor
  · intro w
    cases h : w.m_NativeWindow <;>
      simp [Sengine.Window.Destroy, Sengine.Window.GetIsRunning, h,
        Swindow.Window.Destroy, Swindow.Window.GetIsRunning]
  · intro sw
    simp [Swindow.Window.Destroy, Swindow.Window.GetIsRunning]

/-- C4: on a close-request event, a registered close callback returning
false leaves the running flag true; a registered callback returning true,
or no registered callback, makes the running flag false. -/
theorem windowProc_close_semantics :
    ∀ (win : Swindow.Window) (wParam lParam : Nat),
      (win.m_WindowCallbacks.closeResult = some false →
        win.GetIsRunning = true →
        (Swindow.WindowProc win Swindow.WM_CLOSE wParam lParam).1.GetIsRunning =
          true) ∧
      (win.m_WindowCallbacks.closeResult = some true →
        (Swindow.WindowProc win Swindow.WM_CLOSE wParam lParam).1.GetIsRunning =
          false) ∧
      (win.m_WindowCallbacks.closeResult = none →
        (Swindow.WindowProc win Swindow.WM_CLOSE wParam lParam).1.GetIsRunning =
          false) := by
  intro win wParam lParam
  refine ⟨fun h hr => ?_, fun h => ?_, fun h => ?_⟩ <;>
    simp_all [Swindow.WindowProc, Swindow.WM_CLOSE, Swindow.WM_CHAR,
      Swindow.WM_SIZE, Swindow.WM_KEYDOWN, Swindow.WM_KEYUP,
      Swindow.WM_LBUTTONDOWN, Swindow.WM_LBUTTONUP, Swindow.WM_RBUTTONDOWN,
      Swindow.WM_RBUTTONUP, Swindow.WM_MOUSEMOVE, Swindow.WM_DESTROY,
      Swindow.Window.SetIsRunning, Swindow.Window.GetIsRunning]

/-- C4 witness: close with a callback returning false keeps a running
window running; close with no callback stops it. -/
theorem windowProc_close_semantics_witness :
    (Swindow.WindowProc
        ⟨⟨"Test", 800, 600⟩,
          { Swindow.emptyCallbacks with closeResult := some false },
          ⟨none, none⟩, true⟩
        Swindow.WM_CLOSE 0 0).1.GetIsRunning = true ∧
    (Swindow.WindowProc
        ⟨⟨"Test", 800, 600⟩, Swindow.emptyCallbacks, ⟨none, none⟩, true⟩
        Swindow.WM_CLOSE 0 0).1.GetIsRunning = false :=
  ⟨(windowProc_close_semantics
      ⟨⟨"Test", 800, 600⟩,
        { Swindow.emptyCallbacks with closeResult := some false },
        ⟨none, none⟩, true⟩ 0 0).1 rfl rfl,
    (windowProc_close_semantics
      ⟨⟨"Test", 800, 600⟩, Swindow.emptyCallbacks, ⟨none, none⟩, true⟩ 0 0).2.2
      rfl⟩

/-- C3 counterexample: a resize event carrying width 1024 and height 768
processed with NO resize callback registered leaves the stored width at
800 — the description update is skipped, contradicting the claim that it
happens regardless of callback registration. -/
theorem windowProc_resize_counterexample :
    ((Swindow.WindowProc
        ⟨⟨"Test", 800, 600⟩, Swindow.emptyCallbacks, ⟨none, none⟩, true⟩
        Swindow.WM_SIZE 0 (768 * 65536 + 1024)).1.m_WindowDescription.Width =
      800) ∧
    ¬((Swindow.WindowProc
        ⟨⟨"Test", 800, 600⟩, Swindow.emptyCallbacks, ⟨none, none⟩, true⟩
        Swindow.WM_SIZE 0 (768 * 65536 + 1024)).1.m_WindowDescription.Width =
      1024) := by
  constructor <;> decide

/-- C3 amended: a resize event updates the description to the event's
width and height and invokes the resize callback with those same values
when a resize callback is registered; with no resize callback registered
the event changes nothing and invokes nothing. -/
theorem windowProc_resize_semantics :
    ∀ (win : Swindow.Window) (wParam lParam : Nat),
      (win.m_WindowCallbacks.resizeRegistered = true →
        (Swindow.WindowProc win Swindow.WM_SIZE wParam lParam).1.m_WindowDescription.Width =
            (Swindow.LOWORD lParam : Int) ∧
        (Swindow.WindowProc win Swindow.WM_SIZE wParam lParam).1.m_WindowDescription.Height =
            (Swindow.HIWORD lParam : Int) ∧
        (Swindow.WindowProc win Swindow.WM_SIZE wParam lParam).2 =
          [Swindow.CallbackInvocation.resize (Swindow.LOWORD lParam)
            (Swindow.HIWORD lParam)]) ∧
      (win.m_WindowCallbacks.resizeRegistered = false →
        Swindow.WindowProc win Swindow.WM_SIZE wParam lParam = (win, [])) := by
  intro win wParam lParam
  constructor <;> intro h <;>
    simp [Swindow.WindowProc, Swindow.WM_SIZE, Swindow.WM_CHAR,
      Swindow.WM_KEYDOWN, Swindow.WM_KEYUP, Swindow.WM_LBUTTONDOWN,
      Swindow.WM_LBUTTONUP, Swindow.WM_RBUTTONDOWN, Swindow.WM_RBUTTONUP,
      Swindow.WM_MOUSEMOVE, Swindow.WM_DESTROY, h,
      Swindow.Window.SetWindowSize]

/-- C3 amended witness: with a resize callback registered, a resize event
to 1024×768 stores those values and reports them to the callback; the
same event with no callback registered is a no-op. -/
theorem windowProc_resize_semantics_witness :
    ((Swindow.WindowProc
        ⟨⟨"Test", 800, 600⟩,
          { Swindow.emptyCallbacks with resizeRegistered := true },
          ⟨none, none⟩, true⟩
        Swindow.WM_SIZE 0 (768 * 65536 + 1024)).1.m_WindowDescription.Width =
      (Swindow.LOWORD (768 * 65536 + 1024) : Int)) ∧
    Swindow.WindowProc
        ⟨⟨"Test", 800, 600⟩, Swindow.emptyCallbacks, ⟨none, none⟩, true⟩
        Swindow.WM_SIZE 0 (768 * 65536 + 1024) =
      (⟨⟨"Test", 800, 600⟩, Swindow.emptyCallbacks, ⟨none, none⟩, true⟩, []) :=
  ⟨((windowProc_resize_semantics
      ⟨⟨"Test", 800, 600⟩,
        { Swindow.emptyCallbacks with resizeRegistered := true },
        ⟨none, none⟩, true⟩ 0 (768 * 65536 + 1024)).1 rfl).1,
    (windowProc_resize_semantics
      ⟨⟨"Test", 800, 600⟩, Swindow.emptyCallbacks, ⟨none, none⟩, true⟩ 0
      (768 * 65536 + 1024)).2 rfl⟩

/-- C10: a right-mouse-button event (down or up) processed while a mouse
callback is registered always invokes the callback with action false,
because the pressed test compares the message against `WM_LBUTTONDOWN`. -/
theorem windowProc_rbutton_never_pressed :
    ∀ (win : Swindow.Window) (uMsg wParam lParam : Nat),
      (uMsg = Swindow.WM_RBUTTONDOWN ∨ uMsg = Swindow.WM_RBUTTONUP) →
      win.m_WindowCallbacks.mouseRegistered = true →
      (Swindow.WindowProc win uMsg wParam lParam).2 =
        [Swindow.CallbackInvocation.mouse Swindow.MouseButton.RightMouseButton
          false] := by
  intro win uMsg wParam lParam hmsg hreg
  rcases hmsg with h | h <;> subst h <;>
    simp [Swindow.WindowProc, Swindow.WM_CHAR, Swindow.WM_SIZE,
      Swindow.WM_KEYDOWN, Swindow.WM_KEYUP, Swindow.WM_LBUTTONDOWN,
      Swindow.WM_LBUTTONUP, Swindow.WM_RBUTTONDOWN, Swindow.WM_RBUTTONUP,
      Swindow.WM_MOUSEMOVE, Swindow.WM_DESTROY, hreg,
      Swindow.mouseButtonOfCode, Swindow.VK_RBUTTON]

/-- C10 witness: both right-button messages on a window with a registered
mouse callback report action false. -/
theorem windowProc_rbutton_never_pressed_witness :
    (Swindow.WindowProc
        ⟨⟨"Test", 800, 600⟩,
          { Swindow.emptyCallbacks with mouseRegistered := true },
          ⟨none, none⟩, true⟩
        Swindow.WM_RBUTTONDOWN 0 0).2 =
      [Swindow.CallbackInvocation.mouse Swindow.MouseButton.RightMouseButton
        false] ∧
    (Swindow.WindowProc
        ⟨⟨"Test", 800, 600⟩,
          { Swindow.emptyCallbacks with mouseRegistered := true },
          ⟨none, none⟩, true⟩
        Swindow.WM_RBUTTONUP 0 0).2 =
      [Swindow.CallbackInvocation.mouse Swindow.MouseButton.RightMouseButton
        false] :=
  ⟨windowProc_rbutton_never_pressed
      ⟨⟨"Test", 800, 600⟩,
        { Swindow.emptyCallbacks with mouseRegistered := true },
        ⟨none, none⟩, true⟩
      Swindow.WM_RBUTTONDOWN 0 0 (Or.inl rfl) rfl,
    windowProc_rbutton_never_pressed
      ⟨⟨"Test", 800, 600⟩,
        { Swindow.emptyCallbacks with mouseRegistered := true },
        ⟨none, none⟩, true⟩
      Swindow.WM_RBUTTONUP 0 0 (Or.inr rfl) rfl⟩

/-- A successful table lookup exhibits membership of the key/value pair. -/
theorem mapFind_mem {α β : Type} [DecidableEq α] (l : List (α × β)) (k : α)
    (v : β) : mapFind l k = some v → (k, v) ∈ l := by
  induction l with
  | nil => intro h; simp [mapFind] at h
  | cons p rest ih =>
    intro h
    by_cases hk : k = p.1
    · have : p = (k, v) := by
        cases p
        simp_all [mapFind]
      simp [this]
    · right
      apply ih
      cases p
      simp_all [mapFind]

/-- Every entry of the forward key table round-trips through the reverse
table. -/
theorem convertKeyMap_roundtrip_all :
    Swindow.convertKeyMap.all
      (fun p =>
        Swindow.GetNativeKeyCodes (Swindow.ConvertNativeKeyCodes p.1) == p.1) =
      true := by
  decide

/-- C7: for every native key code in the lookup table the round trip
`GetNativeKeyCodes (ConvertNativeKeyCodes code)` returns the code itself;
a native code missing from the table converts to `KeyCode::Unknown`, and a
`KeyCode` missing from the reverse table maps to `-1`. -/
theorem keycode_tables_roundtrip :
    (∀ (k : Int) (kc : Swindow.KeyCode),
      mapFind Swindow.convertKeyMap k = some kc →
      Swindow.GetNativeKeyCodes (Swindow.ConvertNativeKeyCodes k) = k) ∧
    (∀ k : Int, mapFind Swindow.convertKeyMap k = none →
      Swindow.ConvertNativeKeyCodes k = Swindow.KeyCode.Unknown) ∧
    (∀ c : Swindow.KeyCode, mapFind Swindow.nativeKeyMap c = none →
      Swindow.GetNativeKeyCodes c = -1) := by
  refine ⟨?_, ?_, ?_⟩
  · intro k kc h
    have hm := mapFind_mem Swindow.convertKeyMap k kc h
    have hall := List.all_eq_true.mp convertKeyMap_roundtrip_all _ hm
    simpa using hall
  · intro k h
    simp [Swindow.ConvertNativeKeyCodes, h]
  · intro c h
    simp [Swindow.GetNativeKeyCodes, h]

/-- C7 witness: native code 65 maps to `KeyCode::A` and back to 65;
native code 7 is unmapped and converts to `Unknown`; `KeyCode::Num5` is
absent from the reverse table and maps to `-1`. -/
theorem keycode_tables_roundtrip_witness :
    Swindow.GetNativeKeyCodes (Swindow.ConvertNativeKeyCodes 65) = 65 ∧
    Swindow.ConvertNativeKeyCodes 7 = Swindow.KeyCode.Unknown ∧
    Swindow.GetNativeKeyCodes Swindow.KeyCode.Num5 = -1 :=
  ⟨keycode_tables_roundtrip.1 65 Swindow.KeyCode.A (by decide),
    keycode_tables_roundtrip.2.1 7 (by decide),
    keycode_tables_roundtrip.2.2 Swindow.KeyCode.Num5 (by decide)⟩
